import Mathlib

/-!
Shallow embedding of the API-access layer of the anivault repository
(src js api module: typed errors, response cache, rate limiter,
retrying transport, client facade), with theorems settling the
specification claims about it.

Conventions of the embedding:
* machine time is an abstract `Nat` clock in milliseconds;
* the HTTP transport is a pure function from the attempt number to the
  response observed on that attempt;
* the random jitter (Math.random() * 500 in the source) is an explicit
  input function from the attempt number to the jitter drawn there;
* JSON parsing is modelled as the identity on the response body string;
* a FetchResult additionally records the total backoff delay waited and
  the number of HTTP attempts performed, which in the source are
  observable through the timer waits and the fetch calls.
-/

namespace AniVault

/-- Base URL of the Jikan API (JIKAN_API_BASE in config.js). -/
def BASE_URL : String := "https://api.jikan.moe/v4"

/-- Maximum number of retries (api.js line 137). -/
def MAX_RETRIES : Nat := 3

/-- Base backoff in milliseconds (api.js line 138). -/
def BASE_BACKOFF_MS : Nat := 1000

/-- Typed error taxonomy of api.js: RateLimitError, ApiError (covering the
spec's ServerError and ClientError, distinguished by message and status) and
NetworkError.  Each carries the fields the corresponding constructor sets. -/
inductive JikanErr where
  | rateLimit (url : String) (attempt : Nat)
  | api (message : String) (status : Nat) (url : String)
  | network (message : String) (url : String)
deriving DecidableEq

/-- One observed transport outcome: an HTTP response with a status code and a
body, or a transport-level failure (fetch rejecting) with a message. -/
inductive Resp where
  | http (status : Nat) (body : String)
  | netFail (message : String)
deriving DecidableEq

deriving instance DecidableEq for Except

/-- Result of fetchWithRetry: the settled outcome, the total backoff delay
inserted (milliseconds of timer waits), and the number of HTTP attempts. -/
structure FetchResult where
  result : Except JikanErr String
  delay : Nat
  attempts : Nat
deriving DecidableEq

/-- Backoff before the retry that follows the given attempt, without jitter:
BASE_BACKOFF_MS * 2 ^ (attempt - 1)  (api.js lines 169, 181, 197). -/
def backoffMs (attempt : Nat) : Nat := BASE_BACKOFF_MS * 2 ^ (attempt - 1)

/-- Embedding of fetchWithRetry (api.js lines 152-202).  The branches match
the source in order: 2xx success (resp.ok), 429 with retry, status at least
500 with retry, other statuses failing immediately with a client ApiError,
and transport-level failures with retry.  A typed error raised by a deeper
recursive call passes through an enclosing call unchanged, as the source's
catch clause rethrows any JikanError instance (api.js line 192). -/
def fetchWithRetry (transport : Nat → Resp) (jitter : Nat → Nat) (url : String)
    (attempt : Nat) : FetchResult :=
  match transport attempt with
  | .http status body =>
    if 200 ≤ status ∧ status < 300 then
      ⟨.ok body, 0, 1⟩
    else if status = 429 then
      if MAX_RETRIES < attempt then
        ⟨.error (.rateLimit url attempt), 0, 1⟩
      else
        let r := fetchWithRetry transport jitter url (attempt + 1)
        ⟨r.result, backoffMs attempt + jitter attempt + r.delay, r.attempts + 1⟩
    else if 500 ≤ status then
      if MAX_RETRIES < attempt then
        ⟨.error (.api ("Server error " ++ toString status ++ ": " ++ body) status url), 0, 1⟩
      else
        let r := fetchWithRetry transport jitter url (attempt + 1)
        ⟨r.result, backoffMs attempt + jitter attempt + r.delay, r.attempts + 1⟩
    else
      ⟨.error (.api ("Client error " ++ toString status ++ ": " ++ body) status url), 0, 1⟩
  | .netFail message =>
    if MAX_RETRIES < attempt then
      ⟨.error (.network ("Network error after " ++ toString attempt ++ " attempts: " ++ message) url), 0, 1⟩
    else
      let r := fetchWithRetry transport jitter url (attempt + 1)
      ⟨r.result, backoffMs attempt + jitter attempt + r.delay, r.attempts + 1⟩
termination_by MAX_RETRIES + 1 - attempt
decreasing_by all_goals (simp [MAX_RETRIES] at *; omega)

/-- Transport of the C1 scenario: HTTP 429 on attempts 1 to 3 and HTTP 200
with the given body on attempt 4 and beyond. -/
def c1Transport (body : String) : Nat → Resp :=
  fun attempt => if attempt ≤ 3 then .http 429 "" else .http 200 body

/-- One entry of the response cache: the stored data and the absolute
expiry time (api.js lines 71-76 store data and expires). -/
structure CacheEntry where
  data : String
  expires : Nat
deriving DecidableEq

/-- The response cache (api.js class ResponseCache).  The backing Map is
embedded as a function from URL keys to optional entries; the key function
is the identity, as in the source. -/
structure ResponseCache where
  store : String → Option CacheEntry
  defaultTTL : Nat

/-- A fresh cache with the default TTL of five minutes (api.js line 52). -/
def emptyCache : ResponseCache :=
  { store := fun _ => none, defaultTTL := 5 * 60 * 1000 }

/-- Cache read (api.js lines 61-69): a missing entry yields none; an entry
with Date.now() past its expiry is deleted and none is returned; otherwise
the stored data is returned.  Returns the possibly updated cache alongside
the lookup result, making the eviction side effect explicit. -/
def ResponseCache.get (c : ResponseCache) (now : Nat) (url : String) :
    Option String × ResponseCache :=
  match c.store url with
  | none => (none, c)
  | some entry =>
    if entry.expires < now then
      (none, { c with store := fun u => if u = url then none else c.store u })
    else
      (some entry.data, c)

/-- Cache write (api.js lines 71-76): unconditionally stores the data with
expiry now plus the given TTL, or the default TTL when none is given. -/
def ResponseCache.set (c : ResponseCache) (now : Nat) (url data : String)
    (ttl : Option Nat) : ResponseCache :=
  { c with store := fun u =>
      if u = url then some ⟨data, now + ttl.getD c.defaultTTL⟩ else c.store u }

/-- Cache clear (api.js lines 78-80): removes all entries. -/
def ResponseCache.clear (c : ResponseCache) : ResponseCache :=
  { c with store := fun _ => none }

/-- A query-parameter value as JS sees it: undefined, null, or a string.
Numeric values in the source are coerced to strings by URLSearchParams, so
they are embedded as their string forms. -/
inductive PVal where
  | undef
  | null
  | str (s : String)
deriving DecidableEq

/-- The parameter list after the sfw defaulting step of buildUrl (api.js
line 143): when no sfw key is present, sfw is set to the string true, which
appends it in JS object insertion order. -/
def effectiveParams (params : List (String × PVal)) : List (String × PVal) :=
  if params.any (fun p => p.1 = "sfw") then params
  else params ++ [("sfw", PVal.str "true")]

/-- The key-value pairs actually placed into the query string by buildUrl
(api.js lines 144-148): parameters whose value is undefined, null, or the
empty string are omitted; the rest keep their order. -/
def queryPairs (params : List (String × PVal)) : List (String × String) :=
  (effectiveParams params).filterMap fun p =>
    match p.2 with
    | .str s => if s = "" then none else some (p.1, s)
    | _ => none

/-- Serialization of the query pairs, as URL.toString() renders
searchParams: empty when there are no pairs, otherwise a question mark and
ampersand-separated key equals value pairs.  Percent-encoding is not
modelled; every value used by the claims is already URL-safe. -/
def renderQuery : List (String × String) → String
  | [] => ""
  | ps => "?" ++ String.intercalate "&" (ps.map fun p => p.1 ++ "=" ++ p.2)

/-- Embedding of buildUrl (api.js lines 140-150). -/
def buildUrl (endpoint : String) (params : List (String × PVal)) : String :=
  BASE_URL ++ endpoint ++ renderQuery (queryPairs params)

/-- Minimum dispatch interval of the rate limiter (api.js line 88). -/
def MIN_INTERVAL_MS : Nat := 350

/-- A queued unit of work, abstracted to what the drain loop observes: how
long awaiting the task takes and the outcome its promise settles with. -/
structure QueuedTask where
  duration : Nat
  outcome : Except JikanErr String

/-- State of the RateLimiter singleton (api.js lines 84-92). -/
structure LimiterState where
  queue : List QueuedTask
  processing : Bool
  lastRequestTime : Nat

/-- Enqueue (api.js lines 94-99): pushes the task at the end of the queue.
The accompanying processQueue call is modelled separately. -/
def LimiterState.enqueue (s : LimiterState) (task : QueuedTask) : LimiterState :=
  { s with queue := s.queue ++ [task] }

/-- The time at which a dispatch leaves when the clock reads t and the last
dispatch was at last (api.js lines 109-115): when less than MIN_INTERVAL_MS
has elapsed since the last dispatch, the loop sleeps the remainder and
dispatches at last + MIN_INTERVAL_MS; otherwise it dispatches at once. -/
def dispatchTime (t last : Nat) : Nat :=
  if t - last < MIN_INTERVAL_MS then last + MIN_INTERVAL_MS else t

/-- The drain loop body of processQueue (api.js lines 105-123) run to
completion from clock t with the given lastRequestTime.  Each iteration
shifts the head task, waits until a full MIN_INTERVAL_MS has elapsed since
the last dispatch, records the new dispatch time, awaits the task and
settles its promise with the task's own outcome.  Returns the list of
(dispatch time, settled outcome) pairs in dispatch order, the final clock,
and the final lastRequestTime. -/
def drainLoop (t last : Nat) : List QueuedTask →
    List (Nat × Except JikanErr String) × Nat × Nat
  | [] => ([], t, last)
  | task :: rest =>
    let dispatchAt := dispatchTime t last
    let r := drainLoop (dispatchAt + task.duration) dispatchAt rest
    ((dispatchAt, task.outcome) :: r.1, r.2.1, r.2.2)

/-- Embedding of processQueue (api.js lines 101-126): when a drain loop is
already active (the processing flag is set) the call returns at once and
dispatches nothing; otherwise it drains the whole queue and clears the
flag. -/
def processQueue (t : Nat) (s : LimiterState) :
    List (Nat × Except JikanErr String) × LimiterState :=
  if s.processing then ([], s)
  else
    let r := drainLoop t s.lastRequestTime s.queue
    (r.1, { queue := [], processing := false, lastRequestTime := r.2.2 })

/-- State of the module-level singletons of the client facade: the response
cache and the permanent genres cache (api.js lines 130-134). -/
structure ApiState where
  cache : ResponseCache
  genresCache : Option String

/-- Result of a facade call: the settled outcome, whether a network fetch
was dispatched through the rate limiter, and the updated singleton state. -/
structure CallResult where
  result : Except JikanErr String
  fetched : Bool
  state : ApiState

/-- Embedding of jikanGet (api.js lines 212-231).  The rate limiter plus
fetchWithRetry pipeline is abstracted as the function net from the URL to
the outcome its promise settles with; the clock is held at now for the
call.  Unless skipCache is set, the cache is consulted first (which may
evict a stale entry) and a hit returns without fetching; otherwise the
fetch runs and only a successful result is written to the cache. -/
def jikanGet (net : String → Except JikanErr String) (now : Nat)
    (endpoint : String) (params : List (String × PVal))
    (skipCache : Bool) (cacheTTL : Option Nat) (s : ApiState) : CallResult :=
  let url := buildUrl endpoint params
  let read := if skipCache then (none, s.cache) else s.cache.get now url
  match read.1 with
  | some data => ⟨.ok data, false, { s with cache := read.2 }⟩
  | none =>
    match net url with
    | .ok data => ⟨.ok data, true, { s with cache := read.2.set now url data cacheTTL }⟩
    | .error e => ⟨.error e, true, { s with cache := read.2 }⟩

/-- TTL passed by getGenres: 24 hours (api.js line 286). -/
def genresTTL : Nat := 24 * 60 * 60 * 1000

/-- The URL getGenres fetches. -/
def genresUrl : String := buildUrl "/genres/anime" []

/-- Embedding of getGenres (api.js lines 284-289): returns the permanent
genres singleton when set; otherwise performs jikanGet and stores a
successful result in the singleton. -/
def getGenres (net : String → Except JikanErr String) (now : Nat)
    (s : ApiState) : CallResult :=
  match s.genresCache with
  | some g => ⟨.ok g, false, s⟩
  | none =>
    let r := jikanGet net now "/genres/anime" [] false (some genresTTL) s
    match r.result with
    | .ok data => ⟨.ok data, r.fetched, { r.state with genresCache := some data }⟩
    | .error e => ⟨.error e, r.fetched, r.state⟩

/-- Embedding of clearCache (api.js lines 294-297): clears the response
cache and resets the genres singleton. -/
def clearCache (s : ApiState) : ApiState :=
  { cache := s.cache.clear, genresCache := none }

/-- Responses on which fetchWithRetry retries rather than terminating:
HTTP 429, HTTP status at least 500, and transport-level failures. -/
def retryTrigger : Resp → Bool
  | .http status _ => status == 429 || decide (500 ≤ status)
  | .netFail _ => true

/- ── Helper lemmas ─────────────────────────────────────────────────── -/

theorem nodupKeys_eq {l : List (String × PVal)}
    (h : (l.map Prod.fst).Nodup) {k : String} {a b : PVal}
    (ha : (k, a) ∈ l) (hb : (k, b) ∈ l) : a = b := by
  induction l with
  | nil => cases ha
  | cons p rest ih =>
    simp only [List.map_cons, List.nodup_cons] at h
    rcases List.mem_cons.mp ha with ha1 | ha1 <;>
      rcases List.mem_cons.mp hb with hb1 | hb1
    · exact congrArg Prod.snd (ha1.trans hb1.symm)
    · have hk : p.1 = k := by rw [← ha1]
      exact absurd (by rw [hk]; exact List.mem_map_of_mem Prod.fst hb1) h.1
    · have hk : p.1 = k := by rw [← hb1]
      exact absurd (by rw [hk]; exact List.mem_map_of_mem Prod.fst ha1) h.1
    · exact ih h.2 ha1 hb1

theorem dispatchTime_ge (t last : Nat) :
    last + MIN_INTERVAL_MS ≤ dispatchTime t last := by
  simp only [dispatchTime, MIN_INTERVAL_MS]
  split <;> omega

theorem drainLoop_outcomes (q : List QueuedTask) : ∀ t last,
    (drainLoop t last q).1.map Prod.snd = q.map QueuedTask.outcome := by
  induction q with
  | nil => intro t last; rfl
  | cons task rest ih => intro t last; simp [drainLoop, ih]

theorem drainLoop_length (q : List QueuedTask) : ∀ t last,
    (drainLoop t last q).1.length = q.length := by
  induction q with
  | nil => intro t last; rfl
  | cons task rest ih => intro t last; simp [drainLoop, ih]

theorem drainLoop_ge (q : List QueuedTask) : ∀ t last,
    ∀ d ∈ (drainLoop t last q).1, last + MIN_INTERVAL_MS ≤ d.1 := by
  induction q with
  | nil => intro t last d hd; cases hd
  | cons task rest ih =>
    intro t last d hd
    simp only [drainLoop, List.mem_cons] at hd
    rcases hd with h | h
    · rw [h]
      exact dispatchTime_ge t last
    · have h1 := ih (dispatchTime t last + task.duration) (dispatchTime t last) d h
      have h2 := dispatchTime_ge t last
      omega

theorem drainLoop_chain (q : List QueuedTask) : ∀ t last,
    List.Chain' (fun a b => a + MIN_INTERVAL_MS ≤ b)
      ((drainLoop t last q).1.map Prod.fst) := by
  induction q with
  | nil => intro t last; simp [drainLoop]
  | cons task rest ih =>
    intro t last
    simp only [drainLoop, List.map_cons]
    refine List.chain'_cons'.mpr ⟨?_, ih _ _⟩
    intro y hy
    have hmem := List.mem_of_mem_head? hy
    rcases List.mem_map.mp hmem with ⟨d, hd, hdy⟩
    have := drainLoop_ge rest (dispatchTime t last + task.duration)
      (dispatchTime t last) d hd
    omega

/- ── C1 ───────────────────────────────────────────────────────────── -/

/-- Counterexample to C1: with HTTP 429 on attempts 1 to 3 and HTTP 200 on
attempt 4, fetchWithRetry starting at attempt 1 succeeds with the attempt-4
body after 4 total attempts; it does not fail with RateLimitError. -/
theorem c1_counterexample :
    (fetchWithRetry (c1Transport "ok") (fun _ => 0) "u" 1).result = Except.ok "ok" ∧
    (fetchWithRetry (c1Transport "ok") (fun _ => 0) "u" 1).attempts = 4 := by
  constructor <;> simp [fetchWithRetry, c1Transport, MAX_RETRIES]

/-- C1 (amended): with 429 on attempts 1 to 3 and 200 on attempt 4, the call
starting at attempt 1 succeeds with the attempt-4 body after 4 total
attempts.  RateLimitError arises only when a 429 is received on an attempt
exceeding MAX_RETRIES: when every attempt returns 429, the call fails with
RateLimitError raised at attempt 4. -/
theorem c1_retry_boundary (body url : String) (jitter : Nat → Nat) :
    (fetchWithRetry (c1Transport body) jitter url 1).result = Except.ok body ∧
    (fetchWithRetry (c1Transport body) jitter url 1).attempts = 4 ∧
    (fetchWithRetry (fun _ => Resp.http 429 "") jitter url 1).result =
      Except.error (JikanErr.rateLimit url 4) := by
  refine ⟨?_, ?_, ?_⟩ <;> simp [fetchWithRetry, c1Transport, MAX_RETRIES]

/- ── C3 ───────────────────────────────────────────────────────────── -/

/-- C3: for every queue drained by the rate limiter, dispatch timestamps
are non-decreasing, consecutive dispatch times are at least
MIN_INTERVAL_MS (350 ms) apart, the dispatched outcomes follow the queue
order exactly (FIFO), and a processQueue call made while the processing
flag is set returns at once without dispatching, so at most one drain loop
is active at any time. -/
theorem c3_limiter (q : List QueuedTask) (t last : Nat) (s : LimiterState)
    (h : s.processing = true) :
    List.Chain' (fun a b => a + MIN_INTERVAL_MS ≤ b)
      ((drainLoop t last q).1.map Prod.fst) ∧
    List.Chain' (fun a b => a ≤ b) ((drainLoop t last q).1.map Prod.fst) ∧
    (drainLoop t last q).1.map Prod.snd = q.map QueuedTask.outcome ∧
    processQueue t s = ([], s) := by
  refine ⟨drainLoop_chain q t last, ?_, drainLoop_outcomes q t last, ?_⟩
  · exact List.Chain'.imp (fun a b hab => by omega) (drainLoop_chain q t last)
  · simp [processQueue, h]

/-- Witness for c3_limiter at a concrete input. -/
theorem c3_limiter_witness :
    ((⟨[], true, 0⟩ : LimiterState).processing = true) ∧
    (List.Chain' (fun a b => a + MIN_INTERVAL_MS ≤ b)
      ((drainLoop 0 0 [⟨5, Except.ok "a"⟩]).1.map Prod.fst) ∧
     List.Chain' (fun a b => a ≤ b)
      ((drainLoop 0 0 [⟨5, Except.ok "a"⟩]).1.map Prod.fst) ∧
     (drainLoop 0 0 [⟨5, Except.ok "a"⟩]).1.map Prod.snd =
       [(⟨5, Except.ok "a"⟩ : QueuedTask)].map QueuedTask.outcome ∧
     processQueue 0 ⟨[], true, 0⟩ = ([], ⟨[], true, 0⟩)) :=
  ⟨rfl, c3_limiter [⟨5, Except.ok "a"⟩] 0 0 ⟨[], true, 0⟩ rfl⟩

/- ── C4 ───────────────────────────────────────────────────────────── -/

/-- C4: every queued unit of work is dispatched and its promise settles
with exactly that unit's own outcome, in queue order; in particular a unit
whose outcome is an error does not halt the drain loop (every task of the
queue is still dispatched) and does not change the outcome any other
queued unit settles with. -/
theorem c4_outcomes (q : List QueuedTask) (t last : Nat) :
    (drainLoop t last q).1.map Prod.snd = q.map QueuedTask.outcome ∧
    (drainLoop t last q).1.length = q.length :=
  ⟨drainLoop_outcomes q t last, drainLoop_length q t last⟩

/- ── C2 ───────────────────────────────────────────────────────────── -/

/-- Counterexample to C2: a get performed exactly at time-of-set plus the
TTL still returns the value, because the source evicts only when Date.now()
is strictly greater than the stored expiry. -/
theorem c2_boundary_counterexample :
    ((emptyCache.set 0 "k" "v" (some 100)).get 100 "k").1 = some "v" := by
  simp [ResponseCache.get, ResponseCache.set]

/-- C2 (amended): set followed immediately by get returns the value; any
get strictly after time-of-set plus the TTL returns none, evicts the entry
as a side effect, and a subsequent get of the same key does not resurrect
it. -/
theorem c2_ttl (c : ResponseCache) (now now1 now2 : Nat) (k v : String)
    (t : Nat) (h : now + t < now1) :
    ((c.set now k v (some t)).get now k).1 = some v ∧
    ((c.set now k v (some t)).get now1 k).1 = none ∧
    ((c.set now k v (some t)).get now1 k).2.store k = none ∧
    ((((c.set now k v (some t)).get now1 k).2).get now2 k).1 = none := by
  have h0 : ¬ (now + t < now) := by omega
  simp [ResponseCache.get, ResponseCache.set, h0, h]

/-- Witness for c2_ttl at a concrete input. -/
theorem c2_ttl_witness :
    (0 + 100 < 101) ∧
    (((emptyCache.set 0 "k" "v" (some 100)).get 0 "k").1 = some "v" ∧
     ((emptyCache.set 0 "k" "v" (some 100)).get 101 "k").1 = none ∧
     ((emptyCache.set 0 "k" "v" (some 100)).get 101 "k").2.store "k" = none ∧
     ((((emptyCache.set 0 "k" "v" (some 100)).get 101 "k").2).get 7 "k").1 = none) :=
  ⟨by decide, c2_ttl emptyCache 0 101 7 "k" "v" 100 (by decide)⟩

/- ── C5 ───────────────────────────────────────────────────────────── -/

/-- C5: for every HTTP status in the 4xx range other than 429, the call
fails immediately with the client-error ApiError carrying the status and
the response body text, performs exactly one HTTP attempt (no retry), and
inserts zero backoff delay. -/
theorem c5_client_error (transport : Nat → Resp) (jitter : Nat → Nat)
    (url body : String) (status : Nat)
    (h400 : 400 ≤ status) (h500 : status < 500) (h429 : status ≠ 429)
    (ht : transport 1 = Resp.http status body) :
    fetchWithRetry transport jitter url 1 =
      ⟨Except.error (JikanErr.api ("Client error " ++ toString status ++ ": " ++ body)
        status url), 0, 1⟩ := by
  rw [fetchWithRetry.eq_def, ht]
  have h1 : ¬ (200 ≤ status ∧ status < 300) := by omega
  have h3 : ¬ (500 ≤ status) := by omega
  simp [h1, h429, h3]

/-- Witness for c5_client_error at a concrete input. -/
theorem c5_client_error_witness :
    (400 ≤ 404 ∧ 404 < 500 ∧ 404 ≠ 429 ∧
      (fun _ : Nat => Resp.http 404 "nf") 1 = Resp.http 404 "nf") ∧
    fetchWithRetry (fun _ => Resp.http 404 "nf") (fun _ => 0) "u" 1 =
      ⟨Except.error (JikanErr.api ("Client error " ++ toString 404 ++ ": " ++ "nf")
        404 "u"), 0, 1⟩ :=
  ⟨⟨by decide, by decide, by decide, rfl⟩,
   c5_client_error (fun _ => Resp.http 404 "nf") (fun _ => 0) "u" "nf" 404
     (by decide) (by decide) (by decide) rfl⟩

/- ── C8 ───────────────────────────────────────────────────────────── -/

/-- C8: on every response that triggers a retry (429, status at least 500,
or a transport-level failure) with retries not yet exhausted, the enclosing
attempt surfaces the deeper attempt's settled result completely unchanged;
in particular a typed error raised by a deeper attempt is never caught and
re-wrapped as a different error kind. -/
theorem c8_no_rewrap (transport : Nat → Resp) (jitter : Nat → Nat)
    (url : String) (attempt : Nat)
    (hA : attempt ≤ MAX_RETRIES) (hR : retryTrigger (transport attempt) = true) :
    (fetchWithRetry transport jitter url attempt).result =
      (fetchWithRetry transport jitter url (attempt + 1)).result := by
  have hMAX : ¬ (MAX_RETRIES < attempt) := by omega
  rw [fetchWithRetry.eq_def]
  cases htr : transport attempt with
  | http status body =>
    rw [htr] at hR
    simp only [retryTrigger, Bool.or_eq_true, beq_iff_eq, decide_eq_true_eq] at hR
    have hnot2xx : ¬ (200 ≤ status ∧ status < 300) := by rcases hR with h | h <;> omega
    rcases hR with h | h
    · simp [hnot2xx, h, hMAX]
    · by_cases h429 : status = 429
      · simp [hnot2xx, h429, hMAX]
      · simp [hnot2xx, h429, h, hMAX]
  | netFail msg => simp [hMAX]

/-- Witness for c8_no_rewrap at a concrete input. -/
theorem c8_no_rewrap_witness :
    (1 ≤ MAX_RETRIES ∧ retryTrigger ((fun _ => Resp.http 429 "") 1) = true) ∧
    (fetchWithRetry (fun _ => Resp.http 429 "") (fun _ => 0) "u" 1).result =
      (fetchWithRetry (fun _ => Resp.http 429 "") (fun _ => 0) "u" 2).result :=
  ⟨⟨by decide, by decide⟩,
   c8_no_rewrap (fun _ => Resp.http 429 "") (fun _ => 0) "u" 1 (by decide) (by decide)⟩

/- ── C9 ───────────────────────────────────────────────────────────── -/

theorem fetchWithRetry_attempts_cases (transport : Nat → Resp)
    (jitter : Nat → Nat) (url : String) (attempt : Nat) :
    (fetchWithRetry transport jitter url attempt).attempts = 1 ∨
    (attempt ≤ MAX_RETRIES ∧
      (fetchWithRetry transport jitter url attempt).attempts =
        (fetchWithRetry transport jitter url (attempt + 1)).attempts + 1) := by
  rw [fetchWithRetry.eq_def]
  cases htr : transport attempt with
  | http status body =>
    by_cases h2 : 200 ≤ status ∧ status < 300
    · left; simp [h2]
    · by_cases h429 : status = 429
      · by_cases hM : MAX_RETRIES < attempt
        · left; simp [h2, h429, hM]
        · exact Or.inr ⟨by omega, by simp [h2, h429, hM]⟩
      · by_cases h5 : 500 ≤ status
        · by_cases hM : MAX_RETRIES < attempt
          · left; simp [h2, h429, h5, hM]
          · exact Or.inr ⟨by omega, by simp [h2, h429, h5, hM]⟩
        · left; simp [h2, h429, h5]
  | netFail msg =>
    by_cases hM : MAX_RETRIES < attempt
    · left; simp [hM]
    · exact Or.inr ⟨by omega, by simp [hM]⟩

theorem fetchWithRetry_attempts_bound (k : Nat) : ∀ (transport : Nat → Resp)
    (jitter : Nat → Nat) (url : String) (attempt : Nat),
    MAX_RETRIES + 1 ≤ attempt + k →
    (fetchWithRetry transport jitter url attempt).attempts ≤ k + 1 := by
  induction k with
  | zero =>
    intro transport jitter url attempt hk
    rcases fetchWithRetry_attempts_cases transport jitter url attempt with h | ⟨hle, _⟩
    · omega
    · omega
  | succ k ih =>
    intro transport jitter url attempt hk
    rcases fetchWithRetry_attempts_cases transport jitter url attempt with h | ⟨hle, h⟩
    · omega
    · have := ih transport jitter url (attempt + 1) (by omega)
      omega

/-- C9: for every sequence of transport responses (any mix of 2xx, 429,
5xx, other 4xx, and transport-level failures) and any jitter draw, a call
starting at attempt 1 performs at most 4 total HTTP attempts. -/
theorem c9_attempt_bound (transport : Nat → Resp) (jitter : Nat → Nat)
    (url : String) :
    (fetchWithRetry transport jitter url 1).attempts ≤ 4 := by
  have := fetchWithRetry_attempts_bound 3 transport jitter url 1 (by decide)
  omega

/- ── C6 ───────────────────────────────────────────────────────────── -/

theorem effectiveParams_of_no_sfw {params : List (String × PVal)}
    (hs : "sfw" ∉ params.map Prod.fst) :
    effectiveParams params = params ++ [("sfw", PVal.str "true")] := by
  unfold effectiveParams
  rw [if_neg]
  intro hcond
  rcases List.any_eq_true.mp hcond with ⟨p, hp, hps⟩
  simp only [decide_eq_true_eq] at hps
  exact hs (hps ▸ List.mem_map_of_mem Prod.fst hp)

theorem effectiveParams_of_sfw {params : List (String × PVal)} {v : PVal}
    (hmem : ("sfw", v) ∈ params) :
    effectiveParams params = params := by
  unfold effectiveParams
  rw [if_pos]
  exact List.any_eq_true.mpr ⟨("sfw", v), hmem, by simp⟩

/-- C6: buildUrl omits every query parameter whose value is undefined,
null, or the empty string; when the caller's params contain no sfw key,
the produced query contains sfw=true; when the caller explicitly supplies
a non-empty sfw value, that value is preserved; and concretely, an anime
search without an sfw key yields a URL containing sfw=true while an
explicit sfw=false override is kept. -/
theorem c6_buildUrl (params : List (String × PVal))
    (hnd : (params.map Prod.fst).Nodup) :
    (∀ k v, (k, v) ∈ params →
      (v = PVal.undef ∨ v = PVal.null ∨ v = PVal.str "") →
      k ∉ (queryPairs params).map Prod.fst) ∧
    ("sfw" ∉ params.map Prod.fst → ("sfw", "true") ∈ queryPairs params) ∧
    (∀ s, s ≠ "" → ("sfw", PVal.str s) ∈ params →
      ("sfw", s) ∈ queryPairs params) ∧
    buildUrl "/anime" [("q", PVal.str "naruto")] =
      "https://api.jikan.moe/v4/anime?q=naruto&sfw=true" ∧
    buildUrl "/anime" [("sfw", PVal.str "false")] =
      "https://api.jikan.moe/v4/anime?sfw=false" := by
  refine ⟨?_, ?_, ?_, by rfl, by rfl⟩
  · intro k v hkv hbad hk
    rcases List.mem_map.mp hk with ⟨x, hx, hxk⟩
    rcases List.mem_filterMap.mp hx with ⟨p, hp, hfp⟩
    obtain ⟨k0, v0⟩ := p
    cases v0 with
    | undef => simp [queryPairs] at hfp
    | null => simp [queryPairs] at hfp
    | str s =>
      by_cases hs : s = ""
      · simp [hs] at hfp
      · simp [hs] at hfp
        subst hfp
        have hkk : k0 = k := hxk
        subst hkk
        by_cases hsfw : ∃ w, ("sfw", w) ∈ params
        · rcases hsfw with ⟨w, hw⟩
          rw [effectiveParams_of_sfw hw] at hp
          have hv := nodupKeys_eq hnd hkv hp
          subst hv
          simp [hs] at hbad
        · rw [effectiveParams_of_no_sfw ?n1] at hp
          case n1 =>
            intro hmem
            rcases List.mem_map.mp hmem with ⟨q, hq, hq1⟩
            obtain ⟨q1, q2⟩ := q
            have hq2 : q1 = "sfw" := hq1
            subst hq2
            exact hsfw ⟨q2, hq⟩
          rcases List.mem_append.mp hp with hp1 | hp1
          · have hv := nodupKeys_eq hnd hkv hp1
            subst hv
            simp [hs] at hbad
          · simp at hp1
            exact hsfw ⟨v, hp1.1 ▸ hkv⟩
  · intro hs
    unfold queryPairs
    rw [effectiveParams_of_no_sfw hs]
    exact List.mem_filterMap.mpr ⟨("sfw", PVal.str "true"), by simp, by simp⟩
  · intro s1 hne hmem
    unfold queryPairs
    rw [effectiveParams_of_sfw hmem]
    exact List.mem_filterMap.mpr ⟨("sfw", PVal.str s1), hmem, by simp [hne]⟩

/-- Witness for c6_buildUrl at a concrete input. -/
theorem c6_buildUrl_witness :
    (([("q", PVal.str "naruto")].map Prod.fst).Nodup) ∧
    ((∀ k v, (k, v) ∈ [("q", PVal.str "naruto")] →
      (v = PVal.undef ∨ v = PVal.null ∨ v = PVal.str "") →
      k ∉ (queryPairs [("q", PVal.str "naruto")]).map Prod.fst) ∧
    ("sfw" ∉ [("q", PVal.str "naruto")].map Prod.fst →
      ("sfw", "true") ∈ queryPairs [("q", PVal.str "naruto")]) ∧
    (∀ s, s ≠ "" → ("sfw", PVal.str s) ∈ [("q", PVal.str "naruto")] →
      ("sfw", s) ∈ queryPairs [("q", PVal.str "naruto")]) ∧
    buildUrl "/anime" [("q", PVal.str "naruto")] =
      "https://api.jikan.moe/v4/anime?q=naruto&sfw=true" ∧
    buildUrl "/anime" [("sfw", PVal.str "false")] =
      "https://api.jikan.moe/v4/anime?sfw=false") :=
  ⟨by decide, c6_buildUrl [("q", PVal.str "naruto")] (by decide)⟩

/- ── C7 ───────────────────────────────────────────────────────────── -/

/-- C7: after clearCache, a getGenres call performs a fresh network fetch
through the rate limiter (rather than returning any previously cached
value, whether from the genres singleton or the response cache), and its
outcome is exactly the fresh network outcome for the genres URL. -/
theorem c7_clear_then_genres (net : String → Except JikanErr String)
    (now : Nat) (s : ApiState) :
    (getGenres net now (clearCache s)).fetched = true ∧
    (getGenres net now (clearCache s)).result = net genresUrl := by
  cases hnet : net (buildUrl "/genres/anime" []) <;>
    simp [getGenres, clearCache, jikanGet, ResponseCache.get, ResponseCache.clear,
      genresUrl, hnet]

/- ── C10 ──────────────────────────────────────────────────────────── -/

theorem get_miss_store (c : ResponseCache) (now : Nat) (url : String)
    (h : (c.get now url).1 = none) : (c.get now url).2.store url = none := by
  unfold ResponseCache.get at h ⊢
  cases hc : c.store url with
  | none => simp [hc]
  | some entry =>
    by_cases he : entry.expires < now
    · simp [hc, he]
    · simp [hc, he] at h

/-- Counterexample to C10: a failing jikanGet call does change the response
cache when a stale entry for the requested URL is present — the lookup
evicts it — even though the call fails and writes nothing. -/
theorem c10_counterexample :
    (jikanGet (fun _ => Except.error (JikanErr.network "boom" "u")) 100 "/x" []
        false none
        ⟨⟨fun u => if u = buildUrl "/x" [] then some ⟨"old", 10⟩ else none,
          300000⟩, none⟩).result =
      Except.error (JikanErr.network "boom" "u") ∧
    ((⟨fun u => if u = buildUrl "/x" [] then some ⟨"old", 10⟩ else none, 300000⟩ :
        ResponseCache).store (buildUrl "/x" []) = some ⟨"old", 10⟩) ∧
    (jikanGet (fun _ => Except.error (JikanErr.network "boom" "u")) 100 "/x" []
        false none
        ⟨⟨fun u => if u = buildUrl "/x" [] then some ⟨"old", 10⟩ else none,
          300000⟩, none⟩).state.cache.store (buildUrl "/x" []) = none := by
  refine ⟨?_, ?_, ?_⟩ <;> simp [jikanGet, ResponseCache.get]

/-- C10 (amended): when jikanGet fails with an error, nothing is written to
the response cache: afterwards the cache is exactly what the read step left
— unchanged when skipCache is set, and otherwise the lookup result, which
at most evicts an already-stale entry for the requested URL — so the entry
for the requested URL is absent whenever the cache was consulted, and the
genres singleton is untouched; cache writes happen only after a successful
fetch. -/
theorem c10_no_write_on_error (net : String → Except JikanErr String)
    (now : Nat) (endpoint : String) (params : List (String × PVal))
    (skipCache : Bool) (cacheTTL : Option Nat) (s : ApiState) (e : JikanErr)
    (h : (jikanGet net now endpoint params skipCache cacheTTL s).result =
      Except.error e) :
    (jikanGet net now endpoint params skipCache cacheTTL s).state.cache =
      (if skipCache then s.cache
       else (s.cache.get now (buildUrl endpoint params)).2) ∧
    (skipCache = false →
      (jikanGet net now endpoint params skipCache cacheTTL s).state.cache.store
        (buildUrl endpoint params) = none) ∧
    (jikanGet net now endpoint params skipCache cacheTTL s).state.genresCache =
      s.genresCache := by
  unfold jikanGet at h ⊢
  cases skipCache with
  | true =>
    cases hnet : net (buildUrl endpoint params) <;> simp [hnet] at h ⊢
  | false =>
    cases hr : (s.cache.get now (buildUrl endpoint params)).1 with
    | some d => simp [hr] at h
    | none =>
      cases hnet : net (buildUrl endpoint params) with
      | ok d => simp [hr, hnet] at h
      | error e2 =>
        simp [hr, hnet] at h ⊢
        exact get_miss_store s.cache now (buildUrl endpoint params) hr

/-- Witness for c10_no_write_on_error at a concrete input. -/
theorem c10_no_write_on_error_witness :
    ((jikanGet (fun _ => Except.error (JikanErr.network "boom" "u")) 0 "/x" []
        false none ⟨emptyCache, none⟩).result =
      Except.error (JikanErr.network "boom" "u")) ∧
    ((jikanGet (fun _ => Except.error (JikanErr.network "boom" "u")) 0 "/x" []
        false none ⟨emptyCache, none⟩).state.cache =
      (if false then (⟨emptyCache, none⟩ : ApiState).cache
       else ((⟨emptyCache, none⟩ : ApiState).cache.get 0 (buildUrl "/x" [])).2) ∧
     (false = false →
      (jikanGet (fun _ => Except.error (JikanErr.network "boom" "u")) 0 "/x" []
        false none ⟨emptyCache, none⟩).state.cache.store (buildUrl "/x" []) = none) ∧
     (jikanGet (fun _ => Except.error (JikanErr.network "boom" "u")) 0 "/x" []
        false none ⟨emptyCache, none⟩).state.genresCache =
      (⟨emptyCache, none⟩ : ApiState).genresCache) :=
  ⟨by simp [jikanGet, ResponseCache.get, emptyCache],
   c10_no_write_on_error (fun _ => Except.error (JikanErr.network "boom" "u")) 0
     "/x" [] false none ⟨emptyCache, none⟩ (JikanErr.network "boom" "u")
     (by simp [jikanGet, ResponseCache.get, emptyCache])⟩

end AniVault
